import Mathlib

/-!
Shallow embedding of `src/data_pipeline/validation.py` (class `DataValidator`)
of the healthcare-ml-system repository, together with theorems settling the
spec claims about it.

Modelling conventions:
* A Python `dict` with string keys is an association list preserving insertion
  order; assignment to an existing key replaces the value in place and
  assignment to a fresh key appends.
* A Python method that can raise is embedded into `Except String`; the message
  plays the role of the exception class.  Code with no `raise` statement and
  no fallible primitive is embedded as a total function.
* `self.validation_stats` is the only mutable state the methods touch, so each
  method takes the validator state and returns the updated one.
* Logging calls (`self.logger.info` / `.warning`) only touch the audit sink;
  they read `len(data)` and never fail or alter validator state, so they are
  not represented.
-/

namespace HealthcareML

/-- Heterogeneous values held by a record or a config dict. -/
inductive Value where
  | str (s : String)
  | int (n : Int)
  | bool (b : Bool)
  | vlist (vs : List Value)
deriving Repr

/-- A statistics dict: string keys, integer counters (Python `dict[str, int]`). -/
abbrev StatsD := List (String × Nat)

/-- A record / config dict: string keys, heterogeneous values. -/
abbrev Record := List (String × Value)

/-- Config dicts have the same shape as records. -/
abbrev Config := List (String × Value)

/-- A schema entry, per the documented format
`{'field_name': {'type': str, 'required': bool, 'range': tuple}}`. -/
structure FieldSpec where
  ftype : String
  required : Bool
deriving Repr, DecidableEq

/-- A schema dict: field name to field spec. -/
abbrev Schema := List (String × FieldSpec)

/-- `d[k]` read on a counters dict, as an `Option` (missing key = `KeyError`). -/
def dictGet (d : StatsD) (k : String) : Option Nat :=
  (d.find? (fun p => p.1 == k)).map (·.2)

/-- `d[k] = v` on a counters dict: replace in place if the key is present,
append otherwise (Python insertion-order semantics). -/
def dictSet (d : StatsD) (k : String) (v : Nat) : StatsD :=
  if (d.find? (fun p => p.1 == k)).isSome then
    d.map (fun p => if p.1 == k then (k, v) else p)
  else
    d ++ [(k, v)]

/-- `d[k] += 1`: raises `KeyError` when the key is absent. -/
def dictIncr (d : StatsD) (k : String) : Except String StatsD :=
  match dictGet d k with
  | none => .error ("KeyError: " ++ k)
  | some v => .ok (dictSet d k (v + 1))

/-- `d.get(k, default)` on a config dict. -/
def dictGetV (d : Config) (k : String) (default : Value) : Value :=
  match (d.find? (fun p => p.1 == k)).map (·.2) with
  | none => default
  | some v => v

/-- The dict literal assigned to `self.validation_stats` in `__init__` and in
`reset_statistics`. -/
def initial_stats : StatsD :=
  [("total_validations", 0), ("passed", 0), ("failed", 0), ("warnings", 0)]

/-- The state of a `DataValidator` instance: the attributes `__init__` sets
(other than the logger, which carries no data the methods read). -/
structure DataValidatorS where
  config : Config
  audit_log_path : Value
  strict_mode : Value
  validation_stats : StatsD
deriving Repr

/-- `DataValidator.__init__(config=None)`: `config or {}`, two `config.get`
calls with defaults, audit-logging setup (not represented), and the
statistics dict.  No statement in the constructor raises. -/
def DataValidator.init (config : Option Config) : DataValidatorS :=
  let cfg := match config with
    | none => []
    | some c => c
  { config := cfg
    audit_log_path := dictGetV cfg "audit_log_path" (Value.str "validation_audit.log")
    strict_mode := dictGetV cfg "strict_mode" (Value.bool true)
    validation_stats := initial_stats }

/-- `DataValidator.validate_schema(data, schema)`.  The body initialises
`errors = []`, logs, increments `total_validations` and `passed`
(each a `+= 1` on the stats dict, hence a possible `KeyError`), and returns
`(True, errors)`. -/
def validate_schema (self : DataValidatorS) (data : Record) (schema : Schema) :
    Except String ((Bool × List String) × DataValidatorS) := do
  let errors : List String := []
  let st ← dictIncr self.validation_stats "total_validations"
  let st ← dictIncr st "passed"
  .ok ((true, errors), { self with validation_stats := st })

/-- `DataValidator.detect_phi(data)`.  The body initialises
`detected_fields = []`, logs, sets `phi_detected = len(detected_fields) > 0`,
and in the (unreachable) detected branch logs a warning and increments the
`warnings` counter.  No statement assigns into `data`; the second component of
the returned triple is the record as it stands after the call. -/
def detect_phi (self : DataValidatorS) (data : Record) :
    Except String ((Bool × List String) × Record × DataValidatorS) :=
  let detected_fields : List String := []
  let phi_detected := detected_fields.length > 0
  if phi_detected then do
    let st ← dictIncr self.validation_stats "warnings"
    .ok ((phi_detected, detected_fields), data, { self with validation_stats := st })
  else
    .ok ((phi_detected, detected_fields), data, self)

/-- The quality report returned by `validate_data_quality`; scores are exact
rationals since the source only ever constructs the literal `0.0`. -/
structure QualityReport where
  completeness_score : ℚ
  consistency_score : ℚ
  accuracy_score : ℚ
  overall_score : ℚ
  issues : List String
deriving Repr, DecidableEq

/-- `DataValidator.validate_data_quality(data)`: builds the literal
`quality_report` dict with all scores `0.0` and empty `issues`, logs, and
returns it unchanged. -/
def validate_data_quality (self : DataValidatorS) (data : Record) : QualityReport :=
  { completeness_score := 0
    consistency_score := 0
    accuracy_score := 0
    overall_score := 0
    issues := [] }

/-- `DataValidator.reset_statistics()`: rebinds `self.validation_stats` to a
fresh all-zero dict. -/
def reset_statistics (self : DataValidatorS) : DataValidatorS :=
  { self with validation_stats := initial_stats }

/-- A sequence of `validate_schema` calls on one validator instance, threading
the state; models a batch of N validate calls. -/
def run_validations (self : DataValidatorS) (calls : List (Record × Schema)) :
    Except String DataValidatorS :=
  match calls with
  | [] => .ok self
  | c :: rest => do
      let r ← validate_schema self c.1 c.2
      run_validations r.2 rest

/-! ### Reference-semantics model of the statistics dict, for
`get_validation_statistics`.

`self.validation_stats` is a heap-allocated dict; `get_validation_statistics`
returns `self.validation_stats.copy()`, a freshly allocated dict with equal
contents.  The heap is a list of dict cells addressed by index. -/

/-- A heap of dict cells; a reference is an index. -/
abbrev Heap := List StatsD

/-- Dereference. -/
def heap_get (h : Heap) (r : Nat) : Option StatsD := h[r]?

/-- Overwrite the cell `r` points to (a caller mutating a dict it holds). -/
def heap_set (h : Heap) (r : Nat) (d : StatsD) : Heap := h.set r d

/-- Allocate a fresh cell; returns the new reference and heap. -/
def heap_alloc (h : Heap) (d : StatsD) : Nat × Heap := (h.length, h ++ [d])

/-- `dict.copy()` contents: a shallow copy holds exactly the same key/value
pairs in the same order; freshness is expressed by `heap_alloc`. -/
def dict_copy (d : StatsD) : StatsD := d

/-- `DataValidator.get_validation_statistics()` under the heap model:
dereference `self.validation_stats`, allocate a copy, return the fresh
reference.  `none` would mean a dangling reference, which the class never
creates. -/
def get_validation_statistics (h : Heap) (self_ref : Nat) : Option (Nat × Heap) :=
  (heap_get h self_ref).map (fun d => heap_alloc h (dict_copy d))

/-! ### Helper lemmas -/

/-- The shape every reachable statistics dict has: the four counter keys in
insertion order.  `initial_stats = canon_stats 0 0 0 0`. -/
def canon_stats (t p f w : Nat) : StatsD :=
  [("total_validations", t), ("passed", p), ("failed", f), ("warnings", w)]

lemma initial_stats_canon : initial_stats = canon_stats 0 0 0 0 := rfl

/-- One `validate_schema` call on a canonical statistics dict: the returned
value is `(True, [])` and the call bumps `total_validations` and `passed`. -/
lemma validate_schema_canon (cfg : Config) (alp sm : Value) (data : Record)
    (schema : Schema) (t p f w : Nat) :
    validate_schema ⟨cfg, alp, sm, canon_stats t p f w⟩ data schema =
      .ok ((true, []), ⟨cfg, alp, sm, canon_stats (t + 1) (p + 1) f w⟩) := rfl

/-- A batch of calls starting from a canonical statistics dict: every call
succeeds, `total_validations` and `passed` each grow by the batch length,
`failed` and `warnings` are untouched. -/
lemma run_validations_canon (cfg : Config) (alp sm : Value)
    (calls : List (Record × Schema)) :
    ∀ t p f w : Nat,
      run_validations ⟨cfg, alp, sm, canon_stats t p f w⟩ calls =
        .ok ⟨cfg, alp, sm, canon_stats (t + calls.length) (p + calls.length) f w⟩ := by
  induction calls with
  | nil => intro t p f w; simp [run_validations]
  | cons c rest ih =>
      intro t p f w
      simp only [run_validations, validate_schema_canon, List.length_cons]
      simp only [Bind.bind, Except.bind]
      rw [ih]
      have h1 : t + 1 + rest.length = t + (rest.length + 1) := by omega
      have h2 : p + 1 + rest.length = p + (rest.length + 1) := by omega
      rw [h1, h2]

lemma dictGet_canon_total (t p f w : Nat) :
    dictGet (canon_stats t p f w) "total_validations" = some t := rfl

lemma dictGet_canon_passed (t p f w : Nat) :
    dictGet (canon_stats t p f w) "passed" = some p := rfl

lemma dictGet_canon_failed (t p f w : Nat) :
    dictGet (canon_stats t p f w) "failed" = some f := rfl

/-! ### Claim theorems -/

/-- A schema declaring `patient_id` as required. -/
def c1_schema : Schema := [("patient_id", { ftype := "str", required := true })]

/-- A record from which the required field `patient_id` is absent. -/
def c1_record : Record := [("age", Value.int 45)]

/-- C1 (code bug): the claim requires that validating a record missing a
required field yields an error naming the field and `is_valid = False`; the
source's `validate_schema` is a placeholder that, on a record missing the
required field `patient_id`, returns `(True, [])` — valid, no error message —
and merely bumps `total_validations` and `passed`. -/
theorem c1_missing_required_field_ignored :
    validate_schema (DataValidator.init none) c1_record c1_schema =
      .ok ((true, []),
        ⟨[], Value.str "validation_audit.log", Value.bool true, canon_stats 1 1 0 0⟩) := rfl

/-- A schema typing `age` as Integer (and requiring both fields). -/
def c2_schema : Schema :=
  [("patient_id", { ftype := "str", required := true }),
   ("age", { ftype := "int", required := true })]

/-- A record holding the string `"forty-five"` in the Integer-typed `age`. -/
def c2_record : Record :=
  [("patient_id", Value.str "P123456"), ("age", Value.str "forty-five")]

/-- C2 (code bug): the claim requires a type error naming `age` when the
Integer-typed field holds a string; the source's `validate_schema` placeholder
performs no type checking at all and returns `(True, [])` on such a record. -/
theorem c2_string_in_integer_field_ignored :
    validate_schema (DataValidator.init none) c2_record c2_schema =
      .ok ((true, []),
        ⟨[], Value.str "validation_audit.log", Value.bool true, canon_stats 1 1 0 0⟩) := rfl

/-- A record with an `ssn` field holding an SSN-formatted string. -/
def c3_record : Record :=
  [("patient_id", Value.str "P123456"), ("ssn", Value.str "123-45-6789")]

/-- C3 (code bug): the claim requires `detect_phi` to return a finding for the
`ssn` field in the SSN category with confidence 1.0; the source's `detect_phi`
placeholder returns `(False, [])` — no findings — on that record (its return
type `(bool, list of field names)` cannot even carry a category or a
confidence). -/
theorem c3_ssn_field_not_flagged :
    detect_phi (DataValidator.init none) c3_record =
      .ok ((false, []), c3_record, DataValidator.init none) := rfl

/-- C4 (confirmed): for any record and schema, two `validate_schema` calls on
the same validator instance — whose statistics dict may stand at any counter
values at the two call times, i.e. in any order relative to other calls —
return the same `(is_valid, errors)` value, namely `(True, [])`. -/
theorem c4_validate_schema_deterministic (cfg cfg2 : Config) (alp alp2 sm sm2 : Value)
    (data : Record) (schema : Schema) (t p f w t2 p2 f2 w2 : Nat) :
    Except.map (fun r => r.1)
        (validate_schema ⟨cfg, alp, sm, canon_stats t p f w⟩ data schema) =
      Except.map (fun r => r.1)
        (validate_schema ⟨cfg2, alp2, sm2, canon_stats t2 p2 f2 w2⟩ data schema) ∧
    Except.map (fun r => r.1)
        (validate_schema ⟨cfg, alp, sm, canon_stats t p f w⟩ data schema) =
      Except.ok (true, ([] : List String)) :=
  ⟨rfl, rfl⟩

/-- Any validator state with statistics in canonical shape runs a batch to the
expected final counters. -/
lemma run_validations_canon' (self : DataValidatorS) (calls : List (Record × Schema))
    (t p f w : Nat) (hs : self.validation_stats = canon_stats t p f w) :
    run_validations self calls =
      .ok { self with
            validation_stats := canon_stats (t + calls.length) (p + calls.length) f w } := by
  obtain ⟨cfg, alp, sm, st⟩ := self
  change st = canon_stats t p f w at hs
  subst hs
  exact run_validations_canon cfg alp sm calls t p f w

/-- C5 (confirmed): (a) after any batch of N `validate_schema` calls starting
from freshly reset statistics, `total_validations = N` and
`passed + failed = N`; (b) the same from a freshly constructed validator;
(c) each single call increments `total_validations` by one and exactly one of
`passed`/`failed` by one. -/
theorem c5_statistics_conservation :
    (∀ (s : DataValidatorS) (calls : List (Record × Schema)),
        ∃ s2 : DataValidatorS,
          run_validations (reset_statistics s) calls = .ok s2 ∧
          dictGet s2.validation_stats "total_validations" = some calls.length ∧
          ∃ p f, dictGet s2.validation_stats "passed" = some p ∧
                 dictGet s2.validation_stats "failed" = some f ∧
                 p + f = calls.length) ∧
    (∀ (config : Option Config) (calls : List (Record × Schema)),
        ∃ s2 : DataValidatorS,
          run_validations (DataValidator.init config) calls = .ok s2 ∧
          dictGet s2.validation_stats "total_validations" = some calls.length ∧
          ∃ p f, dictGet s2.validation_stats "passed" = some p ∧
                 dictGet s2.validation_stats "failed" = some f ∧
                 p + f = calls.length) ∧
    (∀ (cfg : Config) (alp sm : Value) (data : Record) (schema : Schema) (t p f w : Nat),
        ∃ s2 : DataValidatorS,
          validate_schema ⟨cfg, alp, sm, canon_stats t p f w⟩ data schema =
            .ok ((true, []), s2) ∧
          dictGet s2.validation_stats "total_validations" = some (t + 1) ∧
          ((dictGet s2.validation_stats "passed" = some (p + 1) ∧
            dictGet s2.validation_stats "failed" = some f) ∨
           (dictGet s2.validation_stats "passed" = some p ∧
            dictGet s2.validation_stats "failed" = some (f + 1)))) := by
  refine ⟨?_, ?_, ?_⟩
  · intro s calls
    refine ⟨_, run_validations_canon' (reset_statistics s) calls 0 0 0 0 rfl,
      ?_, calls.length, 0, ?_, ?_, ?_⟩
    · show dictGet (canon_stats (0 + calls.length) (0 + calls.length) 0 0)
        "total_validations" = some calls.length
      rw [dictGet_canon_total]; simp
    · show dictGet (canon_stats (0 + calls.length) (0 + calls.length) 0 0)
        "passed" = some calls.length
      rw [dictGet_canon_passed]; simp
    · exact dictGet_canon_failed _ _ _ _
    · simp
  · intro config calls
    have hinit : (DataValidator.init config).validation_stats = canon_stats 0 0 0 0 := by
      cases config <;> rfl
    refine ⟨_, run_validations_canon' (DataValidator.init config) calls 0 0 0 0 hinit,
      ?_, calls.length, 0, ?_, ?_, ?_⟩
    · show dictGet (canon_stats (0 + calls.length) (0 + calls.length) 0 0)
        "total_validations" = some calls.length
      rw [dictGet_canon_total]; simp
    · show dictGet (canon_stats (0 + calls.length) (0 + calls.length) 0 0)
        "passed" = some calls.length
      rw [dictGet_canon_passed]; simp
    · exact dictGet_canon_failed _ _ _ _
    · simp
  · intro cfg alp sm data schema t p f w
    exact ⟨_, validate_schema_canon cfg alp sm data schema t p f w,
      dictGet_canon_total _ _ _ _,
      Or.inl ⟨dictGet_canon_passed _ _ _ _, dictGet_canon_failed _ _ _ _⟩⟩

/-- C6 (confirmed): `detect_phi` never mutates the record — the record after
the call equals the input record (and the findings are purely advisory
values, here always `(False, [])`). -/
theorem c6_detect_phi_never_mutates (self : DataValidatorS) (data : Record) :
    detect_phi self data = .ok ((false, []), data, self) := rfl

/-- C7 (confirmed): on every record (however malformed) and schema,
`validate_schema` and `detect_phi` return normally — an `ok` value carrying
their results as data — and never raise. -/
theorem c7_no_raised_faults :
    (∀ (cfg : Config) (alp sm : Value) (data : Record) (schema : Schema) (t p f w : Nat),
        ∃ v, validate_schema ⟨cfg, alp, sm, canon_stats t p f w⟩ data schema =
          Except.ok v) ∧
    (∀ (self : DataValidatorS) (data : Record), ∃ u, detect_phi self data = Except.ok u) :=
  ⟨fun cfg alp sm data schema t p f w =>
    ⟨_, validate_schema_canon cfg alp sm data schema t p f w⟩,
   fun _ _ => ⟨_, rfl⟩⟩

/-- C8 (code bug): the claim requires construction with an empty/unknown
schema to raise a `ConfigurationError`; the source's `__init__` performs no
schema or config validation whatsoever (no `ConfigurationError` exists in the
code) — constructing a validator on the empty dict completes normally,
returning a fully initialised instance. -/
theorem c8_empty_schema_construction_succeeds :
    DataValidator.init (some []) =
      ⟨[], Value.str "validation_audit.log", Value.bool true, initial_stats⟩ := rfl

/-- A record whose only field is present (no schema declares required
fields, so the claimed completeness score is 1.0). -/
def c9_record : Record := [("patient_id", Value.str "P1")]

/-- C9 (code bug): the claim requires `completeness_score` to be the fraction
of required fields present (1.0 when none are declared); the source's
`validate_data_quality` placeholder does not even take a schema and returns
the literal report with every score `0.0` and no issues, for every record. -/
theorem c9_completeness_score_always_zero :
    (validate_data_quality (DataValidator.init none) c9_record).completeness_score = 0 ∧
    validate_data_quality (DataValidator.init none) c9_record = ⟨0, 0, 0, 0, []⟩ :=
  ⟨rfl, rfl⟩

/-- C10 (confirmed): `get_validation_statistics` returns a copy — under the
heap model, the returned reference is fresh (distinct from the validator's
internal `validation_stats` reference), its contents equal the current
statistics, and overwriting the returned dict leaves the internal dict, and
every later `get_validation_statistics` result, unchanged. -/
theorem c10_get_validation_statistics_returns_copy (h : Heap) (r : Nat) (st : StatsD)
    (hr : heap_get h r = some st) :
    ∃ r2 h2,
      get_validation_statistics h r = some (r2, h2) ∧
      heap_get h2 r2 = some st ∧
      r2 ≠ r ∧
      heap_get h2 r = some st ∧
      ∀ d : StatsD,
        heap_get (heap_set h2 r2 d) r = some st ∧
        ∃ r3 h3,
          get_validation_statistics (heap_set h2 r2 d) r = some (r3, h3) ∧
          heap_get h3 r3 = some st := by
  have hr' : h[r]? = some st := hr
  have hlt : r < h.length := (List.getElem?_eq_some_iff.mp hr').1
  have hne : h.length ≠ r := by omega
  refine ⟨h.length, h ++ [st], ?_, ?_, hne, ?_, ?_⟩
  · simp only [get_validation_statistics, heap_get, heap_alloc, dict_copy, hr', Option.map_some']
  · show (h ++ [st])[h.length]? = some st
    exact List.getElem?_concat_length h st
  · show (h ++ [st])[r]? = some st
    rw [List.getElem?_append_left hlt]; exact hr'
  · intro d
    have hset : heap_get (heap_set (h ++ [st]) h.length d) r = some st := by
      show ((h ++ [st]).set h.length d)[r]? = some st
      rw [List.getElem?_set_ne hne, List.getElem?_append_left hlt]
      exact hr'
    refine ⟨hset, ((h ++ [st]).set h.length d).length,
      (h ++ [st]).set h.length d ++ [st], ?_, ?_⟩
    · simp only [get_validation_statistics, heap_alloc, dict_copy, heap_set]
      rw [show heap_get ((h ++ [st]).set h.length d) r = some st from hset]
      rfl
    · show ((h ++ [st]).set h.length d ++ [st])[((h ++ [st]).set h.length d).length]? =
        some st
      exact List.getElem?_concat_length _ _

/-- Witness for C10: the theorem applied to the one-cell heap holding the
validator's freshly initialised statistics dict at reference 0. -/
theorem c10_get_validation_statistics_returns_copy_witness :
    ∃ r2 h2,
      get_validation_statistics [initial_stats] 0 = some (r2, h2) ∧
      heap_get h2 r2 = some initial_stats ∧
      r2 ≠ 0 ∧
      heap_get h2 0 = some initial_stats ∧
      ∀ d : StatsD,
        heap_get (heap_set h2 r2 d) 0 = some initial_stats ∧
        ∃ r3 h3,
          get_validation_statistics (heap_set h2 r2 d) 0 = some (r3, h3) ∧
          heap_get h3 r3 = some initial_stats :=
  c10_get_validation_statistics_returns_copy [initial_stats] 0 initial_stats rfl

end HealthcareML
